import Mathlib

/-!
Shallow embedding of the image-extraction pipeline of
scripts/image_processor.py (class TrafficImageProcessor), with proofs of
its specified properties.

External effects (cv2 image decoding, tesseract OCR, numpy randomness,
pixel morphology and contour measurements) are modelled as fields of an
environment ImgEnv: each field records the value the corresponding
library call returns during one process_image invocation.  The pure logic
of the pipeline (classification, regular-expression field extraction,
colour segmentation over HSV pixels, table parsing, result assembly) is
translated function by function from the source.
-/

namespace ImageProcessor

/-- Whitespace test matching the regex whitespace class used by the
source patterns (space, tab, newline, carriage return, vertical tab,
form feed; the OCR text the pipeline sees is ASCII). -/
def pyIsSpace (c : Char) : Bool :=
  c == ' ' || c == '\t' || c == '\n' || c == '\r' || c == '\x0b' || c == '\x0c'

/-- Model of str.lower, on the ASCII range that the keyword tests of the
source exercise. -/
def pyLower (s : String) : String := String.mk (s.toList.map Char.toLower)

/-- Model of str.strip: remove leading and trailing whitespace. -/
def pyStrip (s : String) : String :=
  String.mk (((s.toList.dropWhile pyIsSpace).reverse.dropWhile pyIsSpace).reverse)

/-- Model of int() on a digit-only string; the source only applies it to
captures of a digit-run regex group. -/
def pyInt (s : String) : Nat :=
  s.toList.foldl (fun a c => 10 * a + (c.toNat - 48)) 0

/-- Decides whether the first list is an initial segment of the second. -/
def leadsWith : List Char → List Char → Bool
  | [], _ => true
  | _ :: _, [] => false
  | a :: as, b :: bs => a == b && leadsWith as bs

/-- Case-insensitive variant of leadsWith, for the patterns compiled with
re.IGNORECASE. -/
def leadsWithCI : List Char → List Char → Bool
  | [], _ => true
  | _ :: _, [] => false
  | a :: as, b :: bs => a.toLower == b.toLower && leadsWithCI as bs

/-- Model of the substring test kw in haystack on Python strings. -/
def containsSub (kw : List Char) : List Char → Bool
  | [] => kw.isEmpty
  | c :: cs => leadsWith kw (c :: cs) || containsSub kw cs

/-- String-level wrapper of containsSub, haystack first. -/
def strContains (hay kw : String) : Bool := containsSub kw.toList hay.toList

/-- One attempt of the numeric-token rule used by _process_chart and
_generic_ocr_processing (a digit run with an optional fractional part) at
the head of the input: the matched token and the number of characters
consumed.  Returns none exactly when the head is not a digit. -/
def matchNumAt (l : List Char) : Option (List Char × Nat) :=
  let ds := l.takeWhile Char.isDigit
  if ds.isEmpty then none
  else
    match l.drop ds.length with
    | '.' :: r2 =>
      let fs := r2.takeWhile Char.isDigit
      if fs.isEmpty then some (ds, ds.length)
      else some (ds ++ '.' :: fs, ds.length + 1 + fs.length)
    | _ => some (ds, ds.length)

/-- Fueled scan behind findNums.  Each step consumes at least one
character, so fuel equal to the input length always suffices; the
zero-fuel equation is never reached from findNums.  The fuel makes the
recursion structural, hence kernel-computable on concrete inputs. -/
def findNumsGo : Nat → List Char → List (List Char)
  | _, [] => []
  | 0, _ :: _ => []
  | fuel + 1, c :: cs =>
    match matchNumAt (c :: cs) with
    | some p => p.1 :: findNumsGo fuel (cs.drop (p.2 - 1))
    | none => findNumsGo fuel cs

/-- Model of re.findall of the numeric-token pattern: scan left to right;
at a match, continue past it (matches do not overlap); otherwise advance
one character.  A successful match consumes at least one character, so
recursing on cs.drop (k - 1) visits exactly the positions the Python scan
visits. -/
def findNums (l : List Char) : List (List Char) := findNumsGo l.length l

/-- Unit alternatives of the speed pattern of _process_traffic_map, in
source order. -/
def speed_units : List String := ["km/h", "mph", "kph"]

/-- One attempt of the speed pattern (a digit group, optional whitespace,
then one of the unit alternatives, case-insensitively) at the head of the
input: the captured digit group and the number of characters consumed. -/
def matchSpeedAt (l : List Char) : Option (List Char × Nat) :=
  let ds := l.takeWhile Char.isDigit
  if ds.isEmpty then none
  else
    let r1 := l.drop ds.length
    let ws := r1.takeWhile pyIsSpace
    match speed_units.find? (fun u => leadsWithCI u.toList (r1.drop ws.length)) with
    | some u => some (ds, ds.length + ws.length + u.toList.length)
    | none => none

/-- Fueled scan behind findSpeeds; fuel equal to the input length always
suffices. -/
def findSpeedsGo : Nat → List Char → List (List Char)
  | _, [] => []
  | 0, _ :: _ => []
  | fuel + 1, c :: cs =>
    match matchSpeedAt (c :: cs) with
    | some p => p.1 :: findSpeedsGo fuel (cs.drop (p.2 - 1))
    | none => findSpeedsGo fuel cs

/-- Model of re.findall of the speed pattern: left-to-right scan, skipping
past each match, advancing one character on failure. -/
def findSpeeds (l : List Char) : List (List Char) := findSpeedsGo l.length l

/-- Character class A-Z of the location pattern. -/
def isUpperAZ (c : Char) : Bool := 'A' ≤ c && c ≤ 'Z'

/-- Character class a-z of the location pattern. -/
def isLowerAZ (c : Char) : Bool := 'a' ≤ c && c ≤ 'z'

/-- One capitalised word (an uppercase letter followed by one or more
lowercase letters) at the head of the input. -/
def matchCapWord : List Char → Option (List Char × Nat)
  | [] => none
  | c :: cs =>
    if isUpperAZ c then
      let ls := cs.takeWhile isLowerAZ
      if ls.isEmpty then none else some (c :: ls, 1 + ls.length)
    else none

/-- Fueled scan behind matchLocTail; fuel equal to the input length
always suffices. -/
def matchLocTailGo : Nat → List Char → List Char × Nat
  | _, [] => ([], 0)
  | 0, _ :: _ => ([], 0)
  | fuel + 1, c :: cs =>
    if pyIsSpace c then
      let ws := (c :: cs).takeWhile pyIsSpace
      match matchCapWord ((c :: cs).drop ws.length) with
      | some p =>
        let t := matchLocTailGo fuel (cs.drop (ws.length + p.2 - 1))
        (ws ++ p.1 ++ t.1, ws.length + p.2 + t.2)
      | none => ([], 0)
    else ([], 0)

/-- Greedy match of the starred continuation of the location pattern
(whitespace run then another capitalised word, repeated): the matched text
and its length.  A following capitalised word never begins with
whitespace, so maximal munch agrees with the backtracking regex. -/
def matchLocTail (l : List Char) : List Char × Nat := matchLocTailGo l.length l

/-- Fueled scan behind findLocations; fuel equal to the input length
always suffices. -/
def findLocationsGo : Nat → List Char → List (List Char)
  | _, [] => []
  | 0, _ :: _ => []
  | fuel + 1, c :: cs =>
    match matchCapWord (c :: cs) with
    | some p =>
      let t := matchLocTail ((c :: cs).drop p.2)
      (p.1 ++ t.1) :: findLocationsGo fuel (cs.drop (p.2 + t.2 - 1))
    | none => findLocationsGo fuel cs

/-- Model of re.findall of the location-name pattern of
_process_traffic_map: capitalised word sequences, in order found. -/
def findLocations (l : List Char) : List (List Char) := findLocationsGo l.length l

/-- One attempt of an integer-then-unit pattern (digit group, optional
whitespace, then one of the units, case-insensitively) at the head of the
input, returning the captured digit group. -/
def matchIntUnitAt (units : List String) (l : List Char) : Option (List Char) :=
  let ds := l.takeWhile Char.isDigit
  if ds.isEmpty then none
  else
    let r1 := l.drop ds.length
    let ws := r1.takeWhile pyIsSpace
    if units.any (fun u => leadsWithCI u.toList (r1.drop ws.length)) then some ds else none

/-- Model of re.search of an integer-then-unit pattern: the first match in
a left-to-right scan, as used for the time estimate of
_extract_traffic_info. -/
def searchIntUnit (units : List String) : List Char → Option (List Char)
  | [] => none
  | c :: cs =>
    match matchIntUnitAt units (c :: cs) with
    | some ds => some ds
    | none => searchIntUnit units cs

/-- One attempt of a decimal-then-unit pattern at the head of the input,
returning the captured numeric group, as in the distance rule of
_extract_traffic_info. -/
def matchDecUnitAt (units : List String) (l : List Char) : Option (List Char) :=
  match matchNumAt l with
  | some p =>
    let r1 := l.drop p.2
    let ws := r1.takeWhile pyIsSpace
    if units.any (fun u => leadsWithCI u.toList (r1.drop ws.length)) then some p.1 else none
  | none => none

/-- Model of re.search of the decimal-then-unit distance pattern: the
first match in a left-to-right scan. -/
def searchDecUnit (units : List String) : List Char → Option (List Char)
  | [] => none
  | c :: cs =>
    match matchDecUnitAt units (c :: cs) with
    | some tok => some tok
    | none => searchDecUnit units cs

/-- Accumulator scan behind tableSplit.  A maximal whitespace run of
length two or more is one separator (the greedy repetition), a run of
length one is a separator exactly when it is a tab, and any other
character joins the current cell.  Fuel equal to the input length always
suffices. -/
def tableSplitGo : Nat → List Char → List Char → List (List Char)
  | _, [], acc => [acc.reverse]
  | 0, _ :: _, acc => [acc.reverse]
  | fuel + 1, c :: cs, acc =>
    let run := (c :: cs).takeWhile pyIsSpace
    if 2 ≤ run.length then
      acc.reverse :: tableSplitGo fuel (cs.drop (run.length - 1)) []
    else if c == '\t' then
      acc.reverse :: tableSplitGo fuel cs []
    else
      tableSplitGo fuel cs (c :: acc)

/-- Model of re.split on runs of two or more whitespace characters or a
single tab, the cell separator of _process_table. -/
def tableSplit (l : List Char) : List (List Char) := tableSplitGo l.length l []

/-- One HSV pixel as produced by cv2.cvtColor with COLOR_BGR2HSV: three
8-bit channels (hue scaled to 0-180 by OpenCV, saturation and value to
0-255). -/
structure Hsv where
  h : Nat
  s : Nat
  v : Nat
deriving DecidableEq

/-- Environment of one process_image call: the values returned by the
external library calls during that call (the OCR text in each of the
configurations the source requests, the flattened HSV raster, the
morphology and contour measurements, and the pseudo-random source).  The
field exc records an exception raised by any underlying call, for
instance on an unreadable image path; process_image catches it in its
top-level try/except. -/
structure ImgEnv where
  /-- Exception raised by an underlying call, if any. -/
  exc : Option String
  /-- Text of pytesseract.image_to_string(gray), read by _detect_image_type. -/
  ocr_gray : String
  /-- Text of pytesseract.image_to_string(image, config=--psm 6), read by
  _process_traffic_map, _process_chart and _process_screenshot. -/
  ocr_psm6 : String
  /-- Text of pytesseract.image_to_string(gray, config=--psm 6), read by
  _process_table. -/
  ocr_gray_psm6 : String
  /-- Text of pytesseract.image_to_string(image), read by
  _generic_ocr_processing. -/
  ocr_plain : String
  /-- Flattened HSV raster, read by _detect_traffic_colors. -/
  pixels : List Hsv
  /-- cv2.countNonZero of the horizontal morphological opening. -/
  h_line_pixels : Nat
  /-- cv2.countNonZero of the vertical morphological opening. -/
  v_line_pixels : Nat
  /-- Whether cv2.HoughCircles finds circles. -/
  chart_circles : Bool
  /-- Count of contours whose polygonal approximation has 4 vertices. -/
  chart_rects : Nat
  /-- Pseudo-random source; draw i stands for the i-th loop index at which
  np.random.randint(20, 60) is consulted, and is reduced into the interval
  20..59 at the point of use. -/
  rng : Nat → Nat

/-- Sub-record built by _extract_traffic_info; each field is None when its
pattern finds no match. -/
structure TrafficInfo where
  estimated_time : Option String
  distance : Option String
  traffic_level : Option String
deriving DecidableEq

/-- Type-specific payload stored under the data key of a result.  Numeric
chart values are kept as their matched tokens: the float conversion of the
source is injective and length-preserving on them, and no claim concerns
the converted value.  The wall-clock timestamp fields of the source
payloads are omitted: no claim mentions them. -/
inductive Payload where
  | traffic (locations : List String) (speeds : List Nat) (conditions : List String)
  | chart (values : List String) (labels : List String) (chart_type : String)
  | screenshot (app_type : String) (info : TrafficInfo)
  | table (records : List (List (String × String)))
deriving DecidableEq

/-- Result dictionary of process_image.  A field that the Python dict
omits, or sets to None, is modelled as none. -/
structure PyResult where
  type : Option String := none
  data : Option Payload := none
  error : Option String := none
  extracted_count : Option Nat := none
  app_detected : Option String := none
  columns : Option (List String) := none
  rows : Option Nat := none
  text : Option String := none
  numbers : Option (List String) := none
deriving DecidableEq

/-- Hue band of good traffic from _detect_traffic_colors: the inRange test
for (40, 50, 50)..(80, 255, 255), bounds inclusive. -/
def inGreen (p : Hsv) : Bool :=
  40 ≤ p.h && p.h ≤ 80 && 50 ≤ p.s && p.s ≤ 255 && 50 ≤ p.v && p.v ≤ 255

/-- Hue band of moderate traffic: (20, 50, 50)..(40, 255, 255). -/
def inYellow (p : Hsv) : Bool :=
  20 ≤ p.h && p.h ≤ 40 && 50 ≤ p.s && p.s ≤ 255 && 50 ≤ p.v && p.v ≤ 255

/-- Hue band of congested traffic: (0, 50, 50)..(10, 255, 255); the lower
hue bound 0 is trivially satisfied over Nat. -/
def inRed (p : Hsv) : Bool :=
  p.h ≤ 10 && 50 ≤ p.s && p.s ≤ 255 && 50 ≤ p.v && p.v ≤ 255

/-- Pixel count of the green mask. -/
def green_count (pixels : List Hsv) : Nat := (pixels.filter inGreen).length

/-- Pixel count of the yellow mask. -/
def yellow_count (pixels : List Hsv) : Nat := (pixels.filter inYellow).length

/-- Pixel count of the red mask. -/
def red_count (pixels : List Hsv) : Nat := (pixels.filter inRed).length

/-- Model of _detect_traffic_colors: count the pixels of each band, pick
the dominant condition, and return the singleton conditions list repeated
five times (conditions * 5 on a one-element list). -/
def detect_traffic_colors (pixels : List Hsv) : List String :=
  let green_pixels := green_count pixels
  let yellow_pixels := yellow_count pixels
  let red_pixels := red_count pixels
  let cond :=
    if red_pixels > green_pixels ∧ red_pixels > yellow_pixels then "Congested"
    else if yellow_pixels > green_pixels then "Moderate"
    else "Good"
  List.replicate 5 cond

/-- Model of _detect_table_structure: both morphological line counts must
exceed 100. -/
def detect_table_structure (env : ImgEnv) : Bool :=
  env.h_line_pixels > 100 && env.v_line_pixels > 100

/-- Model of _detect_chart_type: circles mean a pie chart, more than five
quadrilateral contours mean a bar chart, else a line chart. -/
def detect_chart_type (env : ImgEnv) : String :=
  if env.chart_circles then "pie_chart"
  else if env.chart_rects > 5 then "bar_chart"
  else "line_chart"

/-- Traffic keyword list of _detect_image_type. -/
def traffic_keywords : List String := ["speed", "km/h", "mph", "traffic", "congestion"]

/-- Map keyword list of _detect_image_type. -/
def map_keywords : List String := ["map", "route", "navigation", "street"]

/-- Chart keyword list of _detect_image_type. -/
def chart_keywords : List String := ["chart", "graph", "data", "time"]

/-- Camera keyword list of _detect_image_type. -/
def camera_keywords : List String := ["camera", "live", "current"]

/-- Model of _detect_image_type: lowercased OCR text drives a nested
keyword decision; when no inner branch returns, control falls through to
the table-structure check, and chart is the final default. -/
def detect_image_type (env : ImgEnv) : String :=
  let text := pyLower env.ocr_gray
  let fallback := if detect_table_structure env then "table" else "chart"
  if traffic_keywords.any (strContains text) then
    if map_keywords.any (strContains text) then "traffic_map"
    else if chart_keywords.any (strContains text) then "chart"
    else if camera_keywords.any (strContains text) then "screenshot"
    else fallback
  else fallback

/-- Model of _process_traffic_map.  The loop over enumerate(locations[:5])
pairs each kept location with the speed of the same index when one was
extracted, else with a fresh np.random.randint(20, 60) draw, and with the
condition of the same index when present, else Moderate. -/
def process_traffic_map (env : ImgEnv) : PyResult :=
  let text := env.ocr_psm6
  let speeds := (findSpeeds text.toList).map String.mk
  let locations := (findLocations text.toList).map String.mk
  let traffic_conditions := detect_traffic_colors env.pixels
  let used := locations.take 5
  let out_speeds := (List.range used.length).map fun i =>
    if i < speeds.length then pyInt (speeds.getD i "") else 20 + env.rng i % 40
  let out_conditions := (List.range used.length).map fun i =>
    if i < traffic_conditions.length then traffic_conditions.getD i "" else "Moderate"
  { type := some "traffic_map"
    data := some (Payload.traffic used out_speeds out_conditions)
    extracted_count := some used.length }

/-- Model of _process_chart: the numeric tokens, truncated to the first
24, labelled Hour 0, Hour 1, and so on, with the detected chart type. -/
def process_chart (env : ImgEnv) : PyResult :=
  let text := env.ocr_psm6
  let numbers := (findNums text.toList).map String.mk
  let values := numbers.take 24
  let labels := (List.range values.length).map fun i => "Hour " ++ toString i
  { type := some "chart"
    data := some (Payload.chart values labels (detect_chart_type env))
    extracted_count := some values.length }

/-- Model of _extract_traffic_info: first time-estimate match, first
distance match, and the prioritised traffic-level keyword test. -/
def extract_traffic_info (text : String) : TrafficInfo :=
  let lower := pyLower text
  { estimated_time := (searchIntUnit ["min", "minutes", "hrs", "hours"] text.toList).map String.mk
    distance := (searchDecUnit ["km", "miles", "mi"] text.toList).map String.mk
    traffic_level :=
      if ["heavy", "congested", "slow"].any (strContains lower) then some "Heavy"
      else if ["moderate", "medium"].any (strContains lower) then some "Moderate"
      else if ["light", "clear", "good"].any (strContains lower) then some "Light"
      else none }

/-- Model of _process_screenshot: the app-type keyword cascade and the
extracted traffic info.  Note the result carries app_detected, not
extracted_count. -/
def process_screenshot (env : ImgEnv) : PyResult :=
  let text := env.ocr_psm6
  let lower := pyLower text
  let app_type :=
    if strContains lower "google maps" || strContains lower "maps" then "google_maps"
    else if strContains lower "waze" then "waze"
    else if strContains lower "apple maps" then "apple_maps"
    else "unknown"
  { type := some "screenshot"
    data := some (Payload.screenshot app_type (extract_traffic_info text))
    app_detected := some app_type }

/-- Model of str.split on a newline: list of the segments between
newline characters, empty segments kept. -/
def splitNewlines : List Char → List (List Char)
  | [] => [[]]
  | c :: cs =>
    if c == '\n' then [] :: splitNewlines cs
    else
      match splitNewlines cs with
      | r :: rs => (c :: r) :: rs
      | [] => [[c]]

/-- Valid table lines of _process_table: strip the text, split on
newlines, keep each stripped non-empty line whose cell split yields more
than one cell. -/
def tableRowsOf (text : String) : List (List String) :=
  (splitNewlines (pyStrip text).toList).filterMap fun lineCs =>
    let s := pyStrip (String.mk lineCs)
    if s.isEmpty then none
    else
      let cells := (tableSplit s.toList).map String.mk
      if cells.length > 1 then some cells else none

/-- Model of _process_table.  With at least two valid lines, the first is
the header and the rest are rows; DataFrame.to_dict(records) pairs each
row with the header columns (the claims only exercise rows whose width
matches the header, where the pairing is the index-wise zip).  Otherwise
the result is an empty table carrying the explanatory note of the source
in its error field. -/
def process_table (env : ImgEnv) : PyResult :=
  match tableRowsOf env.ocr_gray_psm6 with
  | header :: r :: rest =>
    let records := (r :: rest).map fun row => header.zip row
    { type := some "table"
      data := some (Payload.table records)
      columns := some header
      rows := some records.length }
  | _ =>
    { type := some "table"
      data := some (Payload.table [])
      error := some "No valid table structure detected" }

/-- Model of _generic_ocr_processing: the raw text and its numeric tokens,
with no data key. -/
def generic_ocr_processing (env : ImgEnv) : PyResult :=
  let text := env.ocr_plain
  let numbers := (findNums text.toList).map String.mk
  { type := some "generic"
    text := some text
    numbers := some numbers
    extracted_count := some numbers.length }

/-- Model of process_image: any exception from an underlying call is
caught by the top-level try/except and becomes the error dictionary with
data set to None; otherwise the hint (after auto-detection when it is
auto) dispatches to the matching processor, every unknown hint falling to
the generic path. -/
def process_image (env : ImgEnv) (image_type : String) : PyResult :=
  match env.exc with
  | some msg => { error := some ("Processing failed: " ++ msg) }
  | none =>
    let t := if image_type == "auto" then detect_image_type env else image_type
    if t == "traffic_map" then process_traffic_map env
    else if t == "chart" then process_chart env
    else if t == "screenshot" then process_screenshot env
    else if t == "table" then process_table env
    else generic_ocr_processing env

/-- Convenience environment with no exception, empty text and an empty
raster; the concrete instances below override single fields of it. -/
def baseEnv : ImgEnv :=
  { exc := none, ocr_gray := "", ocr_psm6 := "", ocr_gray_psm6 := "", ocr_plain := "",
    pixels := [], h_line_pixels := 0, v_line_pixels := 0, chart_circles := false,
    chart_rects := 0, rng := fun _ => 0 }

/-- Characterisation of leadsWith as list-append decomposition. -/
theorem leadsWith_iff : ∀ (a b : List Char), leadsWith a b = true ↔ ∃ t, b = a ++ t
  | [], b => by simp [leadsWith]
  | _ :: _, [] => by simp [leadsWith]
  | x :: xs, y :: ys => by
    rw [leadsWith]
    simp only [Bool.and_eq_true, beq_iff_eq, leadsWith_iff xs ys, List.cons_append,
      List.cons.injEq]
    constructor
    · rintro ⟨rfl, t, rfl⟩
      exact ⟨t, rfl, rfl⟩
    · rintro ⟨t, rfl, rfl⟩
      exact ⟨rfl, t, rfl⟩

/-- Characterisation of containsSub as list-append decomposition: the
Python substring test holds exactly when the haystack splits around the
needle. -/
theorem containsSub_iff : ∀ (a h : List Char), containsSub a h = true ↔ ∃ u v, h = u ++ a ++ v
  | a, [] => by
    rw [containsSub]
    simp only [List.isEmpty_iff]
    constructor
    · rintro rfl
      exact ⟨[], [], rfl⟩
    · rintro ⟨u, v, huv⟩
      rcases List.append_eq_nil.mp huv.symm with ⟨h1, -⟩
      exact (List.append_eq_nil.mp h1).2
  | a, c :: cs => by
    rw [containsSub]
    simp only [Bool.or_eq_true, leadsWith_iff, containsSub_iff a cs]
    constructor
    · rintro (⟨t, ht⟩ | ⟨u, v, hv⟩)
      · exact ⟨[], t, by simpa using ht⟩
      · exact ⟨c :: u, v, by simp [hv]⟩
    · rintro ⟨u, v, huv⟩
      cases u with
      | nil => exact Or.inl ⟨v, by simpa using huv⟩
      | cons d ds =>
        right
        rw [List.cons_append, List.cons_append] at huv
        injection huv with h1 h2
        exact ⟨ds, v, h2⟩

/-- Filtering a constant list keeps everything or nothing. -/
theorem filter_const {α : Type} (f : α → Bool) (x : α) :
    ∀ l : List α, (∀ p ∈ l, p = x) → l.filter f = if f x then l else [] := by
  intro l
  induction l with
  | nil => intro _; simp
  | cons a as ih =>
    intro h
    have ha : a = x := h a (List.mem_cons_self a as)
    have hrec := ih fun p hp => h p (List.mem_cons_of_mem a hp)
    subst ha
    rw [List.filter_cons, hrec]
    by_cases hf : f a
    · simp [hf]
    · simp [hf]

/-- Indexing a map over List.range below the bound. -/
theorem getD_range_map {α : Type} (f : Nat → α) (n i : Nat) (d : α) (h : i < n) :
    ((List.range n).map f).getD i d = f i := by
  rw [List.getD_eq_getElem?_getD, List.getElem?_map, List.getElem?_range h]
  rfl

/-- Payload carrying no items: the data key is absent or None, or it
holds the empty table list. -/
def dataEmpty (r : PyResult) : Prop :=
  r.data = none ∨ r.data = some (Payload.table [])

/-- Payload populated according to the kind of the result; the generic
kind keeps its payload in the top-level text and numbers keys. -/
def successShape (r : PyResult) : Prop :=
  (∃ l s c, r.type = some "traffic_map" ∧ r.data = some (Payload.traffic l s c))
  ∨ (∃ v lb ct, r.type = some "chart" ∧ r.data = some (Payload.chart v lb ct))
  ∨ (∃ a info, r.type = some "screenshot" ∧ r.data = some (Payload.screenshot a info))
  ∨ (∃ recs, r.type = some "table" ∧ r.data = some (Payload.table recs))
  ∨ (r.type = some "generic" ∧ r.data = none ∧ r.text.isSome = true ∧ r.numbers.isSome = true)

/-- Claim C1: every result of process_image is either an error result,
with the error key set and an empty or absent payload, or a success
result, with the payload populated per its kind and the error key absent.
The disjuncts exclude each other, because the error key cannot be both
set and absent, so a set error key never coexists with a populated data
payload. -/
theorem claim1_error_success_exclusive (env : ImgEnv) (image_type : String) :
    ((process_image env image_type).error.isSome = true
        ∧ dataEmpty (process_image env image_type))
      ∨ ((process_image env image_type).error = none
        ∧ successShape (process_image env image_type)) := by
  unfold process_image
  cases env.exc with
  | some msg =>
    left
    exact ⟨rfl, Or.inl rfl⟩
  | none =>
    dsimp only
    split_ifs
    all_goals
      first
      | exact Or.inr ⟨rfl, Or.inl ⟨_, _, _, rfl, rfl⟩⟩
      | exact Or.inr ⟨rfl, Or.inr (Or.inl ⟨_, _, _, rfl, rfl⟩)⟩
      | exact Or.inr ⟨rfl, Or.inr (Or.inr (Or.inl ⟨_, _, rfl, rfl⟩))⟩
      | exact Or.inr ⟨rfl, Or.inr (Or.inr (Or.inr (Or.inr ⟨rfl, rfl, rfl, rfl⟩)))⟩
      | (unfold process_table
         cases tableRowsOf env.ocr_gray_psm6 with
         | nil => exact Or.inl ⟨rfl, Or.inr rfl⟩
         | cons header rest =>
           cases rest with
           | nil => exact Or.inl ⟨rfl, Or.inr rfl⟩
           | cons r more =>
             exact Or.inr ⟨rfl, Or.inr (Or.inr (Or.inr (Or.inl ⟨_, rfl, rfl⟩)))⟩)

/-- Extracted-count discipline actually implemented by the source: the
traffic, chart and generic results count their primary items, while the
screenshot and table results carry no extracted_count key. -/
def countSpec (r : PyResult) : Prop :=
  (∀ l s c, r.data = some (Payload.traffic l s c) → r.extracted_count = some l.length)
  ∧ (∀ v lb ct, r.data = some (Payload.chart v lb ct) → r.extracted_count = some v.length)
  ∧ (r.type = some "generic" →
      ∃ ns, r.numbers = some ns ∧ r.extracted_count = some ns.length)
  ∧ (r.type = some "screenshot" → r.extracted_count = none)
  ∧ (r.type = some "table" → r.extracted_count = none)

theorem countSpec_traffic (env : ImgEnv) : countSpec (process_traffic_map env) := by
  refine ⟨?_, ?_, ?_, ?_, ?_⟩ <;> simp [countSpec, process_traffic_map]

theorem countSpec_chart (env : ImgEnv) : countSpec (process_chart env) := by
  refine ⟨?_, ?_, ?_, ?_, ?_⟩ <;> simp [countSpec, process_chart]

theorem countSpec_screenshot (env : ImgEnv) : countSpec (process_screenshot env) := by
  refine ⟨?_, ?_, ?_, ?_, ?_⟩ <;> simp [countSpec, process_screenshot]

theorem countSpec_table (env : ImgEnv) : countSpec (process_table env) := by
  unfold process_table
  cases tableRowsOf env.ocr_gray_psm6 with
  | nil => refine ⟨?_, ?_, ?_, ?_, ?_⟩ <;> simp [countSpec]
  | cons header rest =>
    cases rest with
    | nil => refine ⟨?_, ?_, ?_, ?_, ?_⟩ <;> simp [countSpec]
    | cons r more => refine ⟨?_, ?_, ?_, ?_, ?_⟩ <;> simp [countSpec]

theorem countSpec_generic (env : ImgEnv) : countSpec (generic_ocr_processing env) := by
  refine ⟨?_, ?_, ?_, ?_, ?_⟩ <;> simp [countSpec, generic_ocr_processing]

/-- Claim C2 counterexample: with hint screenshot on a benign environment,
process_image returns a successful (error-free) screenshot result that
carries no extracted_count key at all, against the claim that every
successful result contains one. -/
theorem claim2_counterexample :
    (process_image baseEnv "screenshot").error = none
  ∧ (process_image baseEnv "screenshot").type = some "screenshot"
  ∧ (process_image baseEnv "screenshot").extracted_count = none := by
  exact ⟨rfl, rfl, rfl⟩

/-- Claim C2, amended: for every result of process_image, the traffic,
chart and generic results carry an extracted_count equal to the number of
their primary items (locations, chart values, numeric tokens), while
screenshot and table results carry no extracted_count key at all. -/
theorem claim2_extracted_count (env : ImgEnv) (image_type : String) :
    countSpec (process_image env image_type) := by
  unfold process_image
  cases env.exc with
  | some msg => refine ⟨?_, ?_, ?_, ?_, ?_⟩ <;> simp [countSpec]
  | none =>
    dsimp only
    split_ifs
    all_goals
      first
      | exact countSpec_traffic env
      | exact countSpec_chart env
      | exact countSpec_screenshot env
      | exact countSpec_table env
      | exact countSpec_generic env

/-- Environment whose plain OCR text holds two numeric tokens, for the
generic path. -/
def envGen : ImgEnv := { baseEnv with ocr_plain := "10 20" }

/-- Claim C2 witness: the amended theorem instantiated on a concrete
generic run with two numeric tokens. -/
theorem claim2_witness :
    ∃ ns, (process_image envGen "unknown_kind").numbers = some ns
      ∧ (process_image envGen "unknown_kind").extracted_count = some ns.length := by
  exact (claim2_extracted_count envGen "unknown_kind").2.2.1 rfl

/-- Keyword hit test over the lowercased detection text, as in
_detect_image_type. -/
def kwHit (kws : List String) (env : ImgEnv) : Bool :=
  kws.any (strContains (pyLower env.ocr_gray))

/-- Unfolding of the classifier decision tree through kwHit; definitional. -/
theorem detect_image_type_eq (env : ImgEnv) :
    detect_image_type env =
      if kwHit traffic_keywords env then
        if kwHit map_keywords env then "traffic_map"
        else if kwHit chart_keywords env then "chart"
        else if kwHit camera_keywords env then "screenshot"
        else if detect_table_structure env then "table" else "chart"
      else if detect_table_structure env then "table" else "chart" := rfl

/-- Claim C3: for hint auto the classification is a pure function of the
lowercased OCR text and the table-structure signal, decided first-match
first: a traffic keyword together with a map keyword gives traffic_map,
else with a chart keyword gives chart, else with a live or camera keyword
gives screenshot; table is returned exactly when no traffic branch fired
and table structure is detected; chart is the default otherwise; and the
text speed 45 km/h traffic map downtown with no table structure
classifies as traffic_map. -/
theorem claim3_classifier (env : ImgEnv) :
    (∀ env2 : ImgEnv, pyLower env.ocr_gray = pyLower env2.ocr_gray →
        detect_table_structure env = detect_table_structure env2 →
        detect_image_type env = detect_image_type env2)
  ∧ (kwHit traffic_keywords env = true → kwHit map_keywords env = true →
        detect_image_type env = "traffic_map")
  ∧ (kwHit traffic_keywords env = true → kwHit map_keywords env = false →
        kwHit chart_keywords env = true → detect_image_type env = "chart")
  ∧ (kwHit traffic_keywords env = true → kwHit map_keywords env = false →
        kwHit chart_keywords env = false → kwHit camera_keywords env = true →
        detect_image_type env = "screenshot")
  ∧ (detect_image_type env = "table" ↔
        detect_table_structure env = true
        ∧ (kwHit traffic_keywords env = false
            ∨ (kwHit map_keywords env = false ∧ kwHit chart_keywords env = false
                ∧ kwHit camera_keywords env = false)))
  ∧ ((kwHit traffic_keywords env = false
        ∨ (kwHit map_keywords env = false ∧ kwHit chart_keywords env = false
            ∧ kwHit camera_keywords env = false)) →
      detect_table_structure env = false → detect_image_type env = "chart")
  ∧ (env.ocr_gray = "speed 45 km/h traffic map downtown" →
        detect_table_structure env = false → detect_image_type env = "traffic_map") := by
  refine ⟨?_, ?_, ?_, ?_, ?_, ?_, ?_⟩
  · intro env2 h1 h2
    rw [detect_image_type_eq, detect_image_type_eq]
    simp only [kwHit, h1, h2]
  · intro h1 h2
    rw [detect_image_type_eq, h1, h2]
    rfl
  · intro h1 h2 h3
    rw [detect_image_type_eq, h1, h2, h3]
    rfl
  · intro h1 h2 h3 h4
    rw [detect_image_type_eq, h1, h2, h3, h4]
    rfl
  · rw [detect_image_type_eq]
    cases h1 : kwHit traffic_keywords env <;>
      cases h2 : kwHit map_keywords env <;>
        cases h3 : kwHit chart_keywords env <;>
          cases h4 : kwHit camera_keywords env <;>
            cases h5 : detect_table_structure env <;>
              simp
  · intro h1 h2
    rw [detect_image_type_eq, h2]
    rcases h1 with h1 | ⟨hm, hc, hk⟩
    · rw [h1]
      rfl
    · rw [hm, hc, hk]
      cases hT : kwHit traffic_keywords env <;> rfl
  · intro h1 h2
    have ht : kwHit traffic_keywords env = true := by
      simp only [kwHit, h1]
      decide
    have hm : kwHit map_keywords env = true := by
      simp only [kwHit, h1]
      decide
    rw [detect_image_type_eq, ht, hm]
    rfl

/-- Environment whose detection text is the fixed classifier probe of the
specification, with no table structure. -/
def envAuto : ImgEnv := { baseEnv with ocr_gray := "speed 45 km/h traffic map downtown" }

/-- Claim C3 witness: the classifier theorem instantiated on the concrete
probe text. -/
theorem claim3_witness : detect_image_type envAuto = "traffic_map" := by
  exact (claim3_classifier envAuto).2.2.2.2.2.2 rfl rfl

/-- Claim C4: with no internal failure, each hint of the closed set is
echoed as the kind of the result, and every hint outside the closed set
(auto included) falls to the generic path. -/
theorem claim4_hint_dispatch (env : ImgEnv) (image_type : String) (hexc : env.exc = none) :
    (process_image env "traffic_map").type = some "traffic_map"
  ∧ (process_image env "chart").type = some "chart"
  ∧ (process_image env "screenshot").type = some "screenshot"
  ∧ (process_image env "table").type = some "table"
  ∧ (image_type ≠ "auto" → image_type ≠ "traffic_map" → image_type ≠ "chart" →
      image_type ≠ "screenshot" → image_type ≠ "table" →
      (process_image env image_type).type = some "generic") := by
  unfold process_image
  rw [hexc]
  refine ⟨rfl, rfl, rfl, ?_, ?_⟩
  · show (process_table env).type = some "table"
    unfold process_table
    cases tableRowsOf env.ocr_gray_psm6 with
    | nil => rfl
    | cons header rest =>
      cases rest with
      | nil => rfl
      | cons r more => rfl
  · intro h1 h2 h3 h4 h5
    dsimp only
    have ht : (if (image_type == "auto") = true then detect_image_type env else image_type)
        = image_type := if_neg (by simp [h1])
    rw [ht, if_neg (by simp [h2]), if_neg (by simp [h3]), if_neg (by simp [h4]),
      if_neg (by simp [h5])]
    rfl

/-- Claim C4 witness: the dispatch theorem instantiated on the base
environment and an unknown hint. -/
theorem claim4_witness :
    (process_image baseEnv "traffic_map").type = some "traffic_map"
  ∧ (process_image baseEnv "bogus").type = some "generic" := by
  refine ⟨(claim4_hint_dispatch baseEnv "bogus" rfl).1, ?_⟩
  exact (claim4_hint_dispatch baseEnv "bogus" rfl).2.2.2.2
    (by decide) (by decide) (by decide) (by decide) (by decide)

/-- Claim C9: an exception from any underlying call is caught at the
process_image boundary and converted to the well-formed error result:
the error key holds the non-empty prefixed message and the data key holds
no payload.  The embedding of process_image is a total function, so no
fault ever reaches the caller. -/
theorem claim9_exception_handling (env : ImgEnv) (image_type msg : String)
    (hexc : env.exc = some msg) :
    process_image env image_type = { error := some ("Processing failed: " ++ msg) }
  ∧ (process_image env image_type).data = none
  ∧ ∀ e, (process_image env image_type).error = some e → 0 < e.length := by
  unfold process_image
  rw [hexc]
  refine ⟨rfl, rfl, ?_⟩
  intro e he
  have h1 : "Processing failed: " ++ msg = e := by
    simpa using he
  have h2 : e.length = ("Processing failed: ").length + msg.length := by
    rw [← h1, String.length_append]
  have h3 : ("Processing failed: ").length = 19 := rfl
  omega

/-- Environment in which image decoding raised, as on an unreadable
path. -/
def envExc : ImgEnv := { baseEnv with exc := some "could not read image" }

/-- Claim C9 witness: the exception theorem instantiated on a concrete
failing environment. -/
theorem claim9_witness :
    process_image envExc "auto" = { error := some "Processing failed: could not read image" }
  ∧ (process_image envExc "auto").data = none
  ∧ ∀ e, (process_image envExc "auto").error = some e → 0 < e.length := by
  obtain ⟨h1, h2, h3⟩ := claim9_exception_handling envExc "auto" "could not read image" rfl
  refine ⟨?_, h2, h3⟩
  rw [h1]
  rfl

/-- From a hit of apple maps a hit of maps follows: the needle maps is a
suffix part of the needle apple maps. -/
theorem maps_of_apple_maps (s : String) :
    strContains s "apple maps" = true → strContains s "maps" = true := by
  intro h
  rw [strContains, containsSub_iff] at h ⊢
  obtain ⟨u, v, huv⟩ := h
  refine ⟨u ++ ("apple ").toList, v, ?_⟩
  have hsplit : ("apple maps").toList = ("apple ").toList ++ ("maps").toList := rfl
  rw [huv, hsplit]
  simp [List.append_assoc]

/-- Claim C10: the screenshot processor never reports apple_maps, because
any text containing apple maps also contains maps, which the earlier
google_maps branch matches first; the app type ranges over google_maps,
waze and unknown only. -/
theorem claim10_apple_maps_unreachable (env : ImgEnv) :
    (process_screenshot env).app_detected ≠ some "apple_maps"
  ∧ ∀ a info, (process_screenshot env).data = some (Payload.screenshot a info) →
      a = "google_maps" ∨ a = "waze" ∨ a = "unknown" := by
  unfold process_screenshot
  dsimp only
  split_ifs with hg hw ha
  · constructor
    · simp
    · intro a info h
      simp only [Option.some.injEq, Payload.screenshot.injEq] at h
      exact Or.inl h.1.symm
  · constructor
    · simp
    · intro a info h
      simp only [Option.some.injEq, Payload.screenshot.injEq] at h
      exact Or.inr (Or.inl h.1.symm)
  · exfalso
    have hm := maps_of_apple_maps (pyLower env.ocr_psm6) ha
    simp only [Bool.or_eq_true] at hg
    exact hg (Or.inr hm)
  · constructor
    · simp
    · intro a info h
      simp only [Option.some.injEq, Payload.screenshot.injEq] at h
      exact Or.inr (Or.inr h.1.symm)

/-- Environment whose screenshot text names apple maps explicitly. -/
def envApple : ImgEnv := { baseEnv with ocr_psm6 := "Apple Maps route guidance" }

/-- Claim C10 witness: on a text naming apple maps, the processor reports
google_maps, and the unreachability theorem instantiated there excludes
apple_maps. -/
theorem claim10_witness :
    (process_screenshot envApple).app_detected = some "google_maps"
  ∧ (process_screenshot envApple).app_detected ≠ some "apple_maps"
  ∧ ("google_maps" = "google_maps" ∨ "google_maps" = "waze" ∨ "google_maps" = "unknown") := by
  refine ⟨rfl, (claim10_apple_maps_unreachable envApple).1, ?_⟩
  exact (claim10_apple_maps_unreachable envApple).2 "google_maps"
    (extract_traffic_info envApple.ocr_psm6) rfl

theorem detect_traffic_colors_congested (pixels : List Hsv)
    (h1 : red_count pixels > green_count pixels)
    (h2 : red_count pixels > yellow_count pixels) :
    detect_traffic_colors pixels = List.replicate 5 "Congested" := by
  unfold detect_traffic_colors
  dsimp only
  rw [if_pos ⟨h1, h2⟩]

theorem detect_traffic_colors_moderate (pixels : List Hsv)
    (h1 : ¬(red_count pixels > green_count pixels ∧ red_count pixels > yellow_count pixels))
    (h2 : yellow_count pixels > green_count pixels) :
    detect_traffic_colors pixels = List.replicate 5 "Moderate" := by
  unfold detect_traffic_colors
  dsimp only
  rw [if_neg h1, if_pos h2]

theorem detect_traffic_colors_good (pixels : List Hsv)
    (h1 : ¬(red_count pixels > green_count pixels ∧ red_count pixels > yellow_count pixels))
    (h2 : ¬yellow_count pixels > green_count pixels) :
    detect_traffic_colors pixels = List.replicate 5 "Good" := by
  unfold detect_traffic_colors
  dsimp only
  rw [if_neg h1, if_neg h2]

/-- Counting a mask over a single-colour raster. -/
theorem count_filter_const (f : Hsv → Bool) (x : Hsv) (pixels : List Hsv)
    (hall : ∀ p ∈ pixels, p = x) :
    (pixels.filter f).length = if f x then pixels.length else 0 := by
  rw [filter_const f x pixels hall]
  by_cases h : f x = true <;> simp [h]

/-- Claim C5: the colour segmenter returns the single dominant label by
pixel count over the three fixed hue bands (Congested when red exceeds
both green and yellow, else Moderate when yellow exceeds green, else
Good, ties favouring Good), replicated into a list of exactly five
entries; a raster fully saturated in pure red (hue 0) yields Congested,
pure green (scaled hue 60) yields Good, and pure yellow (scaled hue 30)
yields Moderate. -/
theorem claim5_color_segmenter (pixels : List Hsv) :
    (detect_traffic_colors pixels).length = 5
  ∧ (red_count pixels > green_count pixels → red_count pixels > yellow_count pixels →
      detect_traffic_colors pixels = List.replicate 5 "Congested")
  ∧ (¬(red_count pixels > green_count pixels ∧ red_count pixels > yellow_count pixels) →
      yellow_count pixels > green_count pixels →
      detect_traffic_colors pixels = List.replicate 5 "Moderate")
  ∧ (¬(red_count pixels > green_count pixels ∧ red_count pixels > yellow_count pixels) →
      ¬yellow_count pixels > green_count pixels →
      detect_traffic_colors pixels = List.replicate 5 "Good")
  ∧ (pixels ≠ [] → (∀ p ∈ pixels, p = ⟨0, 255, 255⟩) →
      detect_traffic_colors pixels = List.replicate 5 "Congested")
  ∧ (pixels ≠ [] → (∀ p ∈ pixels, p = ⟨60, 255, 255⟩) →
      detect_traffic_colors pixels = List.replicate 5 "Good")
  ∧ (pixels ≠ [] → (∀ p ∈ pixels, p = ⟨30, 255, 255⟩) →
      detect_traffic_colors pixels = List.replicate 5 "Moderate") := by
  refine ⟨?_, ?_, ?_, ?_, ?_, ?_, ?_⟩
  · simp [detect_traffic_colors]
  · exact detect_traffic_colors_congested pixels
  · exact detect_traffic_colors_moderate pixels
  · exact detect_traffic_colors_good pixels
  · intro hne hall
    have hr : red_count pixels = pixels.length := by
      unfold red_count
      rw [count_filter_const inRed _ _ hall, if_pos (by decide)]
    have hg : green_count pixels = 0 := by
      unfold green_count
      rw [count_filter_const inGreen _ _ hall, if_neg (by decide)]
    have hy : yellow_count pixels = 0 := by
      unfold yellow_count
      rw [count_filter_const inYellow _ _ hall, if_neg (by decide)]
    have hlen : 0 < pixels.length := List.length_pos.mpr hne
    exact detect_traffic_colors_congested pixels (by omega) (by omega)
  · intro hne hall
    have hr : red_count pixels = 0 := by
      unfold red_count
      rw [count_filter_const inRed _ _ hall, if_neg (by decide)]
    have hg : green_count pixels = pixels.length := by
      unfold green_count
      rw [count_filter_const inGreen _ _ hall, if_pos (by decide)]
    have hy : yellow_count pixels = 0 := by
      unfold yellow_count
      rw [count_filter_const inYellow _ _ hall, if_neg (by decide)]
    have hlen : 0 < pixels.length := List.length_pos.mpr hne
    exact detect_traffic_colors_good pixels (by omega) (by omega)
  · intro hne hall
    have hr : red_count pixels = 0 := by
      unfold red_count
      rw [count_filter_const inRed _ _ hall, if_neg (by decide)]
    have hg : green_count pixels = 0 := by
      unfold green_count
      rw [count_filter_const inGreen _ _ hall, if_neg (by decide)]
    have hy : yellow_count pixels = pixels.length := by
      unfold yellow_count
      rw [count_filter_const inYellow _ _ hall, if_pos (by decide)]
    have hlen : 0 < pixels.length := List.length_pos.mpr hne
    exact detect_traffic_colors_moderate pixels (by omega) (by omega)

/-- Claim C5 witness: the segmenter theorem instantiated on singleton
rasters of each pure colour. -/
theorem claim5_witness :
    detect_traffic_colors [⟨0, 255, 255⟩] = List.replicate 5 "Congested"
  ∧ detect_traffic_colors [⟨60, 255, 255⟩] = List.replicate 5 "Good"
  ∧ detect_traffic_colors [⟨30, 255, 255⟩] = List.replicate 5 "Moderate" := by
  refine ⟨?_, ?_, ?_⟩
  · exact (claim5_color_segmenter [⟨0, 255, 255⟩]).2.2.2.2.1 (by decide) (by decide)
  · exact (claim5_color_segmenter [⟨60, 255, 255⟩]).2.2.2.2.2.1 (by decide) (by decide)
  · exact (claim5_color_segmenter [⟨30, 255, 255⟩]).2.2.2.2.2.2 (by decide) (by decide)

/-- Claim C6: the traffic-map processor pairs, for each index below
min(5, number of extracted locations), the location of that index with
the extracted speed of the same index when one exists and otherwise a
pseudo-random fallback within 20..59, and with the segmenter condition of
the same index when one exists and otherwise Moderate; the three
sequences of the record are index-aligned with equal lengths, and
extracted_count equals the number of locations used, at most five. -/
theorem claim6_traffic_pairing (env : ImgEnv) :
    ∃ locs spds conds,
      (process_traffic_map env).data = some (Payload.traffic locs spds conds)
    ∧ locs = ((findLocations env.ocr_psm6.toList).map String.mk).take 5
    ∧ locs.length = min (findLocations env.ocr_psm6.toList).length 5
    ∧ spds = (List.range locs.length).map (fun i =>
        if i < ((findSpeeds env.ocr_psm6.toList).map String.mk).length
        then pyInt (((findSpeeds env.ocr_psm6.toList).map String.mk).getD i "")
        else 20 + env.rng i % 40)
    ∧ conds = (List.range locs.length).map (fun i =>
        if i < (detect_traffic_colors env.pixels).length
        then (detect_traffic_colors env.pixels).getD i ""
        else "Moderate")
    ∧ spds.length = locs.length
    ∧ conds.length = locs.length
    ∧ (process_traffic_map env).extracted_count = some locs.length
    ∧ locs.length ≤ 5
    ∧ (∀ i, (findSpeeds env.ocr_psm6.toList).length ≤ i → i < locs.length →
        20 ≤ spds.getD i 0 ∧ spds.getD i 0 < 60) := by
  refine ⟨_, _, _, rfl, rfl, ?_, rfl, rfl, ?_, ?_, rfl, ?_, ?_⟩
  · rw [List.length_take, List.length_map, Nat.min_comm]
  · rw [List.length_map, List.length_range]
  · rw [List.length_map, List.length_range]
  · rw [List.length_take, List.length_map]
    omega
  · intro i hge hlt
    rw [getD_range_map _ _ _ _ hlt]
    rw [if_neg (by rw [List.length_map]; omega)]
    have hmod : env.rng i % 40 < 40 := Nat.mod_lt _ (by omega)
    omega

/-- Environment whose psm6 text carries two capitalised locations and a
single extracted speed. -/
def envTraffic : ImgEnv := { baseEnv with ocr_psm6 := "Downtown 45 km/h Uptown" }

/-- Claim C6 witness: the pairing theorem instantiated on a concrete text
with two locations and one speed; the second speed is the reduced random
fallback and lies within 20..59. -/
theorem claim6_witness :
    (process_traffic_map envTraffic).extracted_count = some 2
  ∧ ∃ locs spds conds,
      (process_traffic_map envTraffic).data = some (Payload.traffic locs spds conds)
      ∧ 20 ≤ spds.getD 1 0 ∧ spds.getD 1 0 < 60 := by
  obtain ⟨locs, spds, conds, h1, h2, h3, h4, h5, h6, h7, h8, h9, h10⟩ :=
    claim6_traffic_pairing envTraffic
  have hlen : locs.length = 2 := by
    rw [h2]
    decide
  have hr := h10 1 (by decide) (by omega)
  refine ⟨?_, locs, spds, conds, h1, hr.1, hr.2⟩
  rw [h8, hlen]

/-- Claim C7: the table processor splits the recognised text into
non-empty lines, splits each on runs of two or more whitespace characters
or a tab, discards lines of at most one cell, and with at least two valid
lines takes the first as header and zips it against each remaining row;
on the probe text it yields exactly the two expected records; with fewer
than two valid lines it returns the empty table record carrying the
explanatory note instead of a hard failure. -/
theorem claim7_table (env : ImgEnv) :
    (∀ row ∈ tableRowsOf env.ocr_gray_psm6, 2 ≤ row.length)
  ∧ (∀ header r rest, tableRowsOf env.ocr_gray_psm6 = header :: r :: rest →
      process_table env =
        { type := some "table"
          data := some (Payload.table ((r :: rest).map fun row => header.zip row))
          columns := some header
          rows := some ((r :: rest).map fun row => header.zip row).length })
  ∧ ((tableRowsOf env.ocr_gray_psm6).length < 2 →
      process_table env =
        { type := some "table"
          data := some (Payload.table [])
          error := some "No valid table structure detected" })
  ∧ (env.ocr_gray_psm6 = "Name  Speed\nA  45\nB  30" →
      process_table env =
        { type := some "table"
          data := some (Payload.table
            [[("Name", "A"), ("Speed", "45")], [("Name", "B"), ("Speed", "30")]])
          columns := some ["Name", "Speed"]
          rows := some 2 }) := by
  refine ⟨?_, ?_, ?_, ?_⟩
  · intro row hrow
    simp only [tableRowsOf, List.mem_filterMap] at hrow
    obtain ⟨line, -, hline⟩ := hrow
    split at hline
    · exact absurd hline (by simp)
    · split at hline
      next h2 =>
        rw [Option.some.injEq] at hline
        rw [← hline]
        omega
      next => exact absurd hline (by simp)
  · intro header r rest htr
    unfold process_table
    rw [htr]
  · intro hlen
    unfold process_table
    cases htr : tableRowsOf env.ocr_gray_psm6 with
    | nil => rfl
    | cons a rest =>
      cases rest with
      | nil => rfl
      | cons b more =>
        rw [htr, List.length_cons, List.length_cons] at hlen
        omega
  · intro henv
    have htr : tableRowsOf env.ocr_gray_psm6
        = [["Name", "Speed"], ["A", "45"], ["B", "30"]] := by
      rw [henv]
      decide
    unfold process_table
    rw [htr]
    rfl

/-- Environment whose table text is the fixed probe of the
specification. -/
def envTable : ImgEnv := { baseEnv with ocr_gray_psm6 := "Name  Speed\nA  45\nB  30" }

/-- Claim C7 witness: the table theorem instantiated on the probe text
and on the empty text. -/
theorem claim7_witness :
    process_table envTable =
      { type := some "table"
        data := some (Payload.table
          [[("Name", "A"), ("Speed", "45")], [("Name", "B"), ("Speed", "30")]])
        columns := some ["Name", "Speed"]
        rows := some 2 }
  ∧ process_table baseEnv =
      { type := some "table"
        data := some (Payload.table [])
        error := some "No valid table structure detected" } := by
  exact ⟨(claim7_table envTable).2.2.2 rfl, (claim7_table baseEnv).2.2.1 (by decide)⟩

/-- Claim C8: the chart processor truncates the numeric series to exactly
the first 24 tokens when more are present, keeps all of them in order
when at most 24 are present, and always produces a labels sequence of the
same length as the values sequence. -/
theorem claim8_chart_truncation (env : ImgEnv) :
    ∃ values labels ct,
      (process_chart env).data = some (Payload.chart values labels ct)
    ∧ values = ((findNums env.ocr_psm6.toList).map String.mk).take 24
    ∧ labels.length = values.length
    ∧ (24 < (findNums env.ocr_psm6.toList).length → values.length = 24)
    ∧ ((findNums env.ocr_psm6.toList).length ≤ 24 →
        values = (findNums env.ocr_psm6.toList).map String.mk)
    ∧ (process_chart env).extracted_count = some values.length := by
  refine ⟨_, _, _, rfl, rfl, ?_, ?_, ?_, rfl⟩
  · rw [List.length_map, List.length_range]
  · intro h
    rw [List.length_take, List.length_map]
    omega
  · intro h
    rw [List.take_of_length_le (by rw [List.length_map]; omega)]

/-- Environment whose chart text carries 26 numeric tokens. -/
def envChart : ImgEnv :=
  { baseEnv with
    ocr_psm6 := "0 1 2 3 4 5 6 7 8 9 10 11 12 13 14 15 16 17 18 19 20 21 22 23 24 25" }

/-- Claim C8 witness: the truncation theorem instantiated on a text of 26
numeric tokens; values and labels both have length exactly 24. -/
theorem claim8_witness :
    ∃ values labels ct,
      (process_chart envChart).data = some (Payload.chart values labels ct)
      ∧ values.length = 24 ∧ labels.length = 24 := by
  obtain ⟨values, labels, ct, h1, h2, h3, h4, h5, h6⟩ := claim8_chart_truncation envChart
  have hv : values.length = 24 := h4 (by decide)
  exact ⟨values, labels, ct, h1, hv, by rw [h3, hv]⟩

end ImageProcessor
